import Mathlib

/-!
Shallow embedding of the WebSocket notification-session lifecycle of
`api.py` (class `USPACYClient`): connection state, the reconnect
supervisor, the liveness watchdog, and the Engine.IO/Socket.IO message
handler.  Strings from the Python source are modelled as `List Char`
(Python `str` is a sequence of characters); wall-clock times as `Int`
seconds; Python integers as `Int`.  `json.loads` and the GUI handler are
external library/collaborator calls and enter as oracle parameters.
-/

/-- Abbreviation: characters of a Lean string literal, used to transcribe
Python string literals. -/
def chars (s : String) : List Char := s.data

/-- Abstract JSON value, the possible results of the external `json.loads`
call (numbers collapsed to `Int`; the decode itself is an oracle). -/
inductive Json where
  | null : Json
  | bool (b : Bool) : Json
  | num (n : Int) : Json
  | str (s : List Char) : Json
  | arr (elems : List Json) : Json
  | obj (fields : List (List Char × Json)) : Json

/-- Python subscript `v[i]` for an integer index on a decoded JSON value:
lists index positionally, strings yield a one-character string, every
other value raises (`none`). -/
def getItem : Json → Nat → Option Json
  | Json.arr xs, i => xs.get? i
  | Json.str s, i => (s.get? i).map (fun c => Json.str [c])
  | _, _ => none

/-- Client state: the fields of `USPACYClient.__init__` that the
notification-WebSocket lifecycle reads or writes.  `ws_notif` mirrors the
Python attribute chain `self.ws_notif` / `.sock` / `.sock.connected`:
`none` = no app object, `some none` = app whose `sock` is `None`,
`some (some b)` = app with a sock whose `connected` flag is `b`. -/
structure ClientState where
  access_token : Option (List Char)
  token_expiry : Int
  ws_notif : Option (Option Bool)
  ws2_should_run : Bool
  ping2_interval_sec : Int
  ping2_timeout_sec : Int
  last2_rx_ts : Int
  reconnect2_attempt : Int
  hasHandler : Bool
deriving DecidableEq

/-- The guard expression `self.ws_notif and getattr(self.ws_notif, "sock",
None) and self.ws_notif.sock.connected` used throughout `api.py`. -/
def wsConnected (s : ClientState) : Bool :=
  match s.ws_notif with
  | some (some b) => b
  | _ => false

/-- Constant `self._max2_backoff`, set to 30 in `__init__` and never reassigned. -/
def max2_backoff : Nat := 30

/-- Model of `connect_notifications_websocket`: no-op when the existing transport
reports connected; otherwise closes any stale app object, creates a fresh
`WebSocketApp` (whose `sock` is not yet established), sets the should-run
flag, resets the attempt counter and starts the run-forever thread.  The
second component records whether a new transport was opened. -/
def connect_notifications_websocket (s : ClientState) : ClientState × Bool :=
  if wsConnected s then (s, false)
  else
    ({ s with ws_notif := some none
            , ws2_should_run := true
            , reconnect2_attempt := 0 }, true)

/-- Model of `_stop_watchdog2`: sets the should-run flag to `False`. -/
def stop_watchdog2 (s : ClientState) : ClientState :=
  { s with ws2_should_run := false }

/-- Delay computation of the `do_reconnect` worker in
`_schedule2_reconnect`: `0` for an immediate request or a zero attempt
counter, else `min(self._max2_backoff, 2 ** max(0, attempt))`. -/
def reconnectDelay (immediate : Bool) (attempt : Int) : Nat :=
  if immediate || attempt == 0 then 0
  else min max2_backoff (2 ^ (max 0 attempt).toNat)

/-- Guarded section of `_schedule2_reconnect` (everything before the
worker thread is spawned): return if the transport still reports
connected; under `self._reconnect2_lock`, return if the should-run flag is
already set, else set it.  The Boolean result records whether a
`do_reconnect` worker thread was spawned. -/
def schedule2_reconnect (s : ClientState) : ClientState × Bool :=
  if wsConnected s then (s, false)
  else if s.ws2_should_run then (s, false)
  else ({ s with ws2_should_run := true }, true)

/-- Model of `refresh_access_token`, abstracted over the HTTP response: on success
(`some (jwt, expiry)`) the access token and expiry are replaced, on
failure the state is unchanged. -/
def refresh_access_token (resp : Option (List Char × Int)) (s : ClientState) :
    ClientState :=
  match resp with
  | some (jwt, expiry) => { s with access_token := some jwt, token_expiry := expiry }
  | none => s

/-- The `do_reconnect` worker up to and including the increment of
`self._reconnect2_attempt` (the lines after the backoff sleep and the
already-reconnected guard): the conditional token refresh, then the
increment.  `now` is `time.time()` at the refresh check; `resp` the
refresh response oracle. -/
def do_reconnect_preAttempt (now : Int) (resp : Option (List Char × Int))
    (s : ClientState) : ClientState :=
  let s1 := if s.access_token.isSome && decide (now > s.token_expiry - 60)
            then refresh_access_token resp s else s
  { s1 with reconnect2_attempt := s1.reconnect2_attempt + 1 }

/-- The `do_reconnect` worker body after the backoff sleep, on the state
it observes then: if the transport already recovered, clear the should-run
flag, zero the attempt counter and abort (second component `true`);
otherwise refresh the token if it is within 60 s of expiry, increment the
attempt counter and call `connect_notifications_websocket`. -/
def do_reconnect (now : Int) (resp : Option (List Char × Int))
    (s : ClientState) : ClientState × Bool :=
  if wsConnected s then
    ({ s with ws2_should_run := false, reconnect2_attempt := 0 }, true)
  else
    ((connect_notifications_websocket (do_reconnect_preAttempt now resp s)).1, false)

/-- Model of `on_ws2_close`: stops the watchdog, then returns if the should-run
flag is clear; otherwise clears the flag and schedules an immediate
reconnect.  The Boolean result records whether `_schedule2_reconnect` was
invoked. -/
def on_ws2_close (s : ClientState) : ClientState × Bool :=
  let s1 := stop_watchdog2 s
  if !s1.ws2_should_run then (s1, false)
  else
    let s2 := { s1 with ws2_should_run := false }
    ((schedule2_reconnect s2).1, true)

/-- One check of the watchdog loop body in `_start_watchdog2`, as a pure
function of the negotiated timeout, the stored `self._last2_rx_ts` and the
current `time.time()`: skip when the timestamp is unset (`<= 0`), close
the socket when the idle time exceeds the timeout. -/
def watchdogCloses (timeoutSec lastRx now : Int) : Bool :=
  if lastRx ≤ 0 then false
  else decide (now - lastRx > timeoutSec)

/-- One iteration of the watchdog loop returning the frames it writes to
the transport together with its close decision; the loop body only ever
sleeps, reads the idle time and possibly calls `self.ws_notif.close()`,
so the frame list is empty by construction. -/
def watchdogLoopIter (timeoutSec lastRx now : Int) : List (List Char) × Bool :=
  ([], watchdogCloses timeoutSec lastRx now)

/-- Value of `self._last2_rx_ts` a whole number of seconds after the
transport opened at wall-clock time `o` (set to `time.time()` in
`on_ws2_open`), given which later seconds saw an inbound frame
(`on_ws2_message` stamps the field on every inbound frame). -/
def lastRxAt (o : Int) (arrive : Nat → Bool) : Nat → Int
  | 0 => o
  | Nat.succ k => if arrive (Nat.succ k) then o + (Nat.succ k : Nat) else lastRxAt o arrive k

/-- Raw handshake payload as the `json.loads` / `dict.get` / `int()`
oracle delivers it for one key: `none` = key absent (Python `get` default
applies), `some none` = key present but `int()` raises, `some (some n)` =
key present with integer value `n`. -/
structure HandshakeRaw where
  pingInterval : Option (Option Int)
  pingTimeout : Option (Option Int)
deriving DecidableEq

/-- The inner try/except of the handshake branch of `on_ws2_message`:
on any parse failure (payload not decodable, or `int()` raising on a
present value) both fields fall back to 25/60; otherwise
`max(5, int(info.get("pingInterval", 25000)) // 1000)` and
`max(10, int(info.get("pingTimeout", 60000)) // 1000)` (Python `//` is
floor division, `Int.fdiv`). -/
def clampHandshake : Option HandshakeRaw → Int × Int
  | none => (25, 60)
  | some r =>
    match r.pingInterval.getD (some 25000), r.pingTimeout.getD (some 60000) with
    | some pi, some pt => (max 5 (Int.fdiv pi 1000), max 10 (Int.fdiv pt 1000))
    | _, _ => (25, 60)

/-- The Socket.IO auth frame built in the handshake branch:
`f'40{{"token":"{self.access_token}"}}'`, a literal character
concatenation with no escaping of the token. -/
def authFrame (tok : List Char) : List Char :=
  chars "40\x7b\"token\":\"" ++ tok ++ chars "\"\x7d"

/-- Python `message.startswith(p)` for a one-character prefix `p`. -/
def startsWith1 (c : Char) : List Char → Bool
  | d :: _ => d = c
  | [] => false

/-- Python `message.startswith(p)` for a two-character prefix `p`. -/
def startsWith2 (c1 c2 : Char) : List Char → Bool
  | d1 :: d2 :: _ => d1 = c1 && d2 = c2
  | _ => false

/-- Body of `on_ws2_message` inside its outermost try (after the raw log
and the `self._last2_rx_ts` stamp), with Python exceptions as
`Except Unit`: the `startswith` chain over the handshake branch (inner
try/except already folded into `clampHandshake`), the ping branch
answering `"3"`, the silent pong / namespace branches, and the event
branch whose `json.JSONDecodeError` and handler exceptions are caught
inline while an indexing error on the decoded value propagates.
`decH`/`decE` are the `json.loads` oracles for `message[1:]` and
`message[2:]`, `hr` tells whether the GUI handler raises.  Returns the
updated state and the frames sent. -/
def on_ws2_message_body (decH : List Char → Option HandshakeRaw)
    (decE : List Char → Option Json) (hr : Json → Json → Bool)
    (s : ClientState) (m : List Char) :
    Except Unit (ClientState × List (List Char)) :=
  if startsWith1 '0' m then
    let pit := clampHandshake (decH (m.drop 1))
    let s1 := { s with ping2_interval_sec := pit.1, ping2_timeout_sec := pit.2 }
    let out := match s1.access_token with
      | some tok => [authFrame tok]
      | none => []
    Except.ok ({ s1 with reconnect2_attempt := 0 }, out)
  else if startsWith1 '2' m then Except.ok (s, [chars "3"])
  else if m = chars "3" then Except.ok (s, [])
  else if startsWith2 '4' '0' m then Except.ok (s, [])
  else if startsWith2 '4' '1' m then Except.ok (s, [])
  else if startsWith2 '4' '2' m then
    match decE (m.drop 2) with
    | none => Except.ok (s, [])
    | some eventData =>
      match getItem eventData 0 with
      | none => Except.error ()
      | some eventType =>
        match getItem eventData 1 with
        | none => Except.error ()
        | some payload =>
          let _ := if s.hasHandler then hr eventType payload else false
          Except.ok (s, [])
  else Except.ok (s, [])

/-- Model of `on_ws2_message`: stamps `self._last2_rx_ts = time.time()`, then runs
the body under the outermost `try`/`except Exception` which logs and
swallows anything the body raises. -/
def on_ws2_message (decH : List Char → Option HandshakeRaw)
    (decE : List Char → Option Json) (hr : Json → Json → Bool) (now : Int)
    (s : ClientState) (message : List Char) : ClientState × List (List Char) :=
  let s0 := { s with last2_rx_ts := now }
  match on_ws2_message_body decH decE hr s0 message with
  | Except.ok r => r
  | Except.error _ => (s0, [])

/-- Frames `on_ws2_message` sends for one inbound frame, as a function of
the held access token only (derived below; stated here to express the
outbound-traffic discipline). -/
def msgOut (tok : Option (List Char)) (m : List Char) : List (List Char) :=
  if startsWith1 '0' m then
    match tok with
    | some t => [authFrame t]
    | none => []
  else if startsWith1 '2' m then [chars "3"]
  else []

/-- Concatenation of the per-frame outbound frame lists. -/
def joinFrames : List (List (List Char)) → List (List Char) :=
  fun l => l.foldr (fun a b => a ++ b) []

/-- Sequential processing of a list of inbound frames by
`on_ws2_message`, collecting all outbound frames in order (the
websocket-client library delivers frames one at a time on the session
thread). -/
def runSession (decH : List Char → Option HandshakeRaw)
    (decE : List Char → Option Json) (hr : Json → Json → Bool) (now : Int) :
    ClientState → List (List Char) → ClientState × List (List Char)
  | s, [] => (s, [])
  | s, m :: ms =>
    let r1 := on_ws2_message decH decE hr now s m
    let r2 := runSession decH decE hr now r1.1 ms
    (r2.1, r1.2 ++ r2.2)

/-!
A JSON recognizer, used to state whether an emitted auth frame's payload
is valid JSON (RFC 8259 grammar over characters; the recognizer only
accepts well-formed JSON texts).  Recursion is fueled; every recursive
call strictly consumes input, so fuel `2 * length + 2` always suffices.
-/

/-- JSON insignificant whitespace. -/
def isJsonWs (c : Char) : Bool :=
  c = ' ' || c = '\t' || c = '\n' || c = '\r'

/-- Drop leading JSON whitespace. -/
def skipWs (cs : List Char) : List Char := cs.dropWhile isJsonWs

/-- Hexadecimal digit, as allowed in a `\u` escape. -/
def isHexDig (c : Char) : Bool :=
  c.isDigit || ('a' ≤ c && c ≤ 'f') || ('A' ≤ c && c ≤ 'F')

/-- Scan the remainder of a JSON string literal, the opening quote already
consumed: escapes are `\" \\ \/ \b \f \n \r \t` and `\uXXXX`; raw control
characters are forbidden.  Returns the input after the closing quote. -/
def scanStringRest : List Char → Option (List Char)
  | [] => none
  | '"' :: rest => some rest
  | '\\' :: 'u' :: h1 :: h2 :: h3 :: h4 :: rest =>
    if isHexDig h1 && isHexDig h2 && isHexDig h3 && isHexDig h4 then
      scanStringRest rest
    else none
  | '\\' :: e :: rest =>
    if e = '"' || e = '\\' || e = '/' || e = 'b' || e = 'f' || e = 'n' ||
       e = 'r' || e = 't' then
      scanStringRest rest
    else none
  | c :: rest => if c.toNat < 32 then none else scanStringRest rest

/-- One or more decimal digits, then the rest. -/
def scanDigits1 : List Char → Option (List Char)
  | c :: rest => if c.isDigit then some (rest.dropWhile Char.isDigit) else none
  | [] => none

/-- JSON integer part: `0`, or a nonzero digit followed by digits. -/
def scanIntPart : List Char → Option (List Char)
  | '0' :: rest => some rest
  | c :: rest => if c.isDigit then some (rest.dropWhile Char.isDigit) else none
  | [] => none

/-- Optional JSON fraction part. -/
def scanFracPart : List Char → Option (List Char)
  | '.' :: rest => scanDigits1 rest
  | cs => some cs

/-- Optional JSON exponent part. -/
def scanExpPart : List Char → Option (List Char)
  | c :: s :: rest =>
    if c = 'e' || c = 'E' then
      if s = '+' || s = '-' then scanDigits1 rest else scanDigits1 (s :: rest)
    else some (c :: s :: rest)
  | [c] => if c = 'e' || c = 'E' then none else some [c]
  | [] => some []

/-- JSON number: optional minus, integer part, optional fraction and
exponent. -/
def scanNumber (cs : List Char) : Option (List Char) :=
  let cs1 := match cs with
    | '-' :: r => r
    | _ => cs
  (scanIntPart cs1).bind fun r1 => (scanFracPart r1).bind scanExpPart

mutual

/-- Parse one JSON value (after optional leading whitespace), returning
the unconsumed rest. -/
def parseVal : Nat → List Char → Option (List Char)
  | 0, _ => none
  | Nat.succ f, cs =>
    match skipWs cs with
    | '"' :: rest => scanStringRest rest
    | '\x7b' :: rest => parseObjBody f rest
    | '[' :: rest => parseArrBody f rest
    | 't' :: 'r' :: 'u' :: 'e' :: rest => some rest
    | 'f' :: 'a' :: 'l' :: 's' :: 'e' :: rest => some rest
    | 'n' :: 'u' :: 'l' :: 'l' :: rest => some rest
    | cs2 => scanNumber cs2

/-- Parse an object body, the `\x7b` already consumed: empty object or a
first `"key"` followed by `parseObjAfterKey`. -/
def parseObjBody : Nat → List Char → Option (List Char)
  | 0, _ => none
  | Nat.succ f, cs =>
    match skipWs cs with
    | '\x7d' :: rest => some rest
    | '"' :: rest => (scanStringRest rest).bind (parseObjAfterKey f)
    | _ => none

/-- Parse `: value` after an object key, then the object's continuation. -/
def parseObjAfterKey : Nat → List Char → Option (List Char)
  | 0, _ => none
  | Nat.succ f, cs =>
    match skipWs cs with
    | ':' :: rest => (parseVal f rest).bind (parseObjAfterVal f)
    | _ => none

/-- After a member's value: close the object or continue with `, "key"`. -/
def parseObjAfterVal : Nat → List Char → Option (List Char)
  | 0, _ => none
  | Nat.succ f, cs =>
    match skipWs cs with
    | '\x7d' :: rest => some rest
    | ',' :: rest =>
      match skipWs rest with
      | '"' :: r2 => (scanStringRest r2).bind (parseObjAfterKey f)
      | _ => none
    | _ => none

/-- Parse an array body, the `[` already consumed. -/
def parseArrBody : Nat → List Char → Option (List Char)
  | 0, _ => none
  | Nat.succ f, cs =>
    match skipWs cs with
    | ']' :: rest => some rest
    | _ => (parseVal f cs).bind (parseArrAfterVal f)

/-- After an array element: close the array or continue with `, value`. -/
def parseArrAfterVal : Nat → List Char → Option (List Char)
  | 0, _ => none
  | Nat.succ f, cs =>
    match skipWs cs with
    | ']' :: rest => some rest
    | ',' :: rest => (parseVal f rest).bind (parseArrAfterVal f)
    | _ => none

end

/-- A character sequence is a valid JSON text: one value, possibly
surrounded by whitespace, consuming the whole input. -/
def jsonValid (cs : List Char) : Bool :=
  match parseVal (2 * cs.length + 2) cs with
  | some rest => (skipWs rest).isEmpty
  | none => false

/-- Standard JSON escaping of one character inside a string literal, as a
JSON encoder (the spec's "the JSON encoding of the object") performs it:
quote and backslash are backslash-escaped, control characters take a
`\u00XX` escape, everything else is emitted verbatim. -/
def jsonEscapeChar (c : Char) : List Char :=
  if c = '"' then ['\\', '"']
  else if c = '\\' then ['\\', '\\']
  else if c.toNat < 32 then
    ['\\', 'u', '0', '0', (Nat.digitChar (c.toNat / 16)), (Nat.digitChar (c.toNat % 16))]
  else [c]

/-- JSON escaping of a whole string body. -/
def jsonEscape (t : List Char) : List Char :=
  t.foldr (fun c acc => jsonEscapeChar c ++ acc) []

/-- The JSON encoding of the single-member object whose key is `token`
and whose value is the string `t` (the object the spec says the auth
frame carries). -/
def jsonEncodeTokenObj (t : List Char) : List Char :=
  chars "\x7b\"token\":\"" ++ jsonEscape t ++ chars "\"\x7d"

/-!
Helper lemmas shared by the claim theorems.
-/

/-- Updating the should-run flag does not change what the connected guard
sees. -/
theorem wsConnected_set_should_run (s : ClientState) (b : Bool) :
    wsConnected { s with ws2_should_run := b } = wsConnected s := rfl

/-!
Claim theorems.
-/

/-- C1: the close handler never invokes the Reconnect Supervisor.
`on_ws2_close` first calls `_stop_watchdog2`, which sets the should-run
flag to `False`, and then returns early because it tests that very flag;
the `_schedule2_reconnect(immediate=True)` call below the test is
unreachable, so even a close of a running session (flag `True` on entry)
schedules no reconnect — contradicting the claim that an unexpected close
invokes the supervisor with an immediate-retry request. -/
theorem c1_close_never_schedules_reconnect (s : ClientState) :
    on_ws2_close s = (stop_watchdog2 s, false) ∧
    ((on_ws2_close s).1).ws2_should_run = false := by
  constructor
  · simp [on_ws2_close, stop_watchdog2]
  · simp [on_ws2_close, stop_watchdog2]

/-- C2 counterexample: a non-immediate reconnect scheduling with attempt
counter 0 computes delay 0, not the claimed 1 second (the worker treats a
zero attempt counter like an immediate request). -/
theorem c2_counterexample :
    reconnectDelay false 0 = 0 ∧ reconnectDelay false 0 ≠ 1 := by decide

/-- C2 amended: for a non-immediate reconnect scheduling with attempt
counter n, the computed delay is 0 for n = 0 (the first attempt is
treated as immediate), 2, 4, 8 seconds for n = 1, 2, 3, and exactly 30
seconds (the cap) for every n ≥ 5. -/
theorem c2_backoff_amended (n : Int) (h : 5 ≤ n) :
    reconnectDelay false 0 = 0 ∧ reconnectDelay false 1 = 2 ∧
    reconnectDelay false 2 = 4 ∧ reconnectDelay false 3 = 8 ∧
    reconnectDelay false n = 30 := by
  refine ⟨by decide, by decide, by decide, by decide, ?_⟩
  have hne : (n == 0) = false := by
    simp only [beq_eq_false_iff_ne]
    omega
  have hmax : max 0 n = n := by omega
  have h5 : 5 ≤ n.toNat := by omega
  have hpow : (30 : Nat) ≤ 2 ^ n.toNat := by
    calc (30 : Nat) ≤ 2 ^ 5 := by norm_num
    _ ≤ 2 ^ n.toNat := Nat.pow_le_pow_right (by norm_num) h5
  have hcond : (false || (n == 0)) = false := by simp [hne]
  rw [reconnectDelay, hcond, if_neg Bool.false_ne_true, hmax]
  exact min_eq_left hpow

/-- C2 witness: the amended backoff facts evaluated at attempt 7. -/
theorem c2_backoff_witness :
    (5 ≤ (7 : Int)) ∧ reconnectDelay false 7 = 30 :=
  ⟨by decide, (c2_backoff_amended 7 (by decide)).2.2.2.2⟩

/-- C3 counterexample: `connect_notifications_websocket` resets the
reconnect attempt counter to 0 merely on issuing a connect request —
here a state whose transport is not connected and whose counter stands
at 7 has its counter zeroed before any handshake frame arrives,
contradicting "never merely on issuing a connect request". -/
theorem c3_counterexample :
    wsConnected ⟨none, 0, none, false, 25, 60, 0, 7, false⟩ = false ∧
    ((connect_notifications_websocket
        ⟨none, 0, none, false, 25, 60, 0, 7, false⟩).1).reconnect2_attempt = 0 := by
  decide

/-- C3 amended: the reconnect attempt counter is reset to 0 on a
successful open (arrival of the handshake frame), on the reconnect
worker finding the transport already recovered, and additionally
whenever a connect request proceeds past the idempotency guard (before
any handshake); it is incremented by the reconnect worker before each
attempted connection. -/
theorem c3_attempt_counter_amended (s t u : ClientState)
    (hs : wsConnected s = false) (hu : wsConnected u = true) :
    ((connect_notifications_websocket s).1).reconnect2_attempt = 0 ∧
    (∀ decH decE hr now rest,
      ((on_ws2_message decH decE hr now t ('0' :: rest)).1).reconnect2_attempt = 0) ∧
    (∀ now resp, do_reconnect now resp u
        = ({ u with ws2_should_run := false, reconnect2_attempt := 0 }, true)) ∧
    (∀ now resp, (do_reconnect_preAttempt now resp s).reconnect2_attempt
        = s.reconnect2_attempt + 1) := by
  refine ⟨?_, ?_, ?_, ?_⟩
  · simp [connect_notifications_websocket, hs]
  · intro decH decE hr now rest
    simp [on_ws2_message, on_ws2_message_body, startsWith1]
  · intro now resp
    simp [do_reconnect, hu]
  · intro now resp
    unfold do_reconnect_preAttempt refresh_access_token
    split
    · cases resp <;> simp
    · simp

/-- C3 witness: the amended counter facts evaluated at concrete
disconnected and connected states. -/
theorem c3_attempt_counter_witness :
    ((connect_notifications_websocket
        ⟨none, 0, none, false, 25, 60, 0, 3, false⟩).1).reconnect2_attempt = 0 ∧
    (do_reconnect_preAttempt 0 none
        ⟨none, 0, none, false, 25, 60, 0, 3, false⟩).reconnect2_attempt = 4 :=
  ⟨(c3_attempt_counter_amended ⟨none, 0, none, false, 25, 60, 0, 3, false⟩
      ⟨none, 0, none, false, 25, 60, 0, 3, false⟩
      ⟨none, 0, some (some true), false, 25, 60, 0, 0, false⟩
      (by decide) (by decide)).1,
   (c3_attempt_counter_amended ⟨none, 0, none, false, 25, 60, 0, 3, false⟩
      ⟨none, 0, none, false, 25, 60, 0, 3, false⟩
      ⟨none, 0, some (some true), false, 25, 60, 0, 0, false⟩
      (by decide) (by decide)).2.2.2 0 none⟩

/-- C7: calling connect while the existing transport reports connected is
a no-op (state unchanged, no new transport), and a new transport is only
ever opened when the previous one does not report connected. -/
theorem c7_connect_idempotent (s : ClientState) :
    (wsConnected s = true → connect_notifications_websocket s = (s, false)) ∧
    ((connect_notifications_websocket s).2 = true → wsConnected s = false) := by
  unfold connect_notifications_websocket
  by_cases h : wsConnected s <;> simp [h]

/-- C7 witness: the idempotency no-op at a concrete connected state. -/
theorem c7_connect_idempotent_witness :
    connect_notifications_websocket ⟨none, 0, some (some true), true, 25, 60, 0, 0, false⟩
      = (⟨none, 0, some (some true), true, 25, 60, 0, 0, false⟩, false) :=
  (c7_connect_idempotent _).1 (by decide)

/-- C9: a scheduling request that finds the in-progress flag (the
should-run flag checked under `self._reconnect2_lock`) already set does
nothing further, and of two consecutive scheduling requests at most one
ever spawns a reconnect worker. -/
theorem c9_reconnect_mutual_exclusion (s : ClientState) :
    (s.ws2_should_run = true → schedule2_reconnect s = (s, false)) ∧
    ¬((schedule2_reconnect s).2 = true ∧
      (schedule2_reconnect (schedule2_reconnect s).1).2 = true) := by
  unfold schedule2_reconnect
  by_cases hc : wsConnected s <;> by_cases hr : s.ws2_should_run <;>
    simp [hc, hr, wsConnected_set_should_run]

/-- C9 witness: the guard no-op at a concrete state whose in-progress
flag is set. -/
theorem c9_reconnect_mutual_exclusion_witness :
    schedule2_reconnect ⟨none, 0, none, true, 25, 60, 0, 0, false⟩
      = (⟨none, 0, none, true, 25, 60, 0, 0, false⟩, false) :=
  (c9_reconnect_mutual_exclusion _).1 (by decide)

/-- A frame passing the one-character `startswith` test has that
character at its head. -/
theorem startsWith1_shape (c : Char) (m : List Char)
    (h : startsWith1 c m = true) : ∃ rest, m = c :: rest := by
  match m with
  | [] => simp [startsWith1] at h
  | d :: rest =>
    simp [startsWith1] at h
    exact ⟨rest, by rw [h]⟩

/-- A frame passing the two-character `startswith` test has those two
characters at its head. -/
theorem startsWith2_shape (c1 c2 : Char) (m : List Char)
    (h : startsWith2 c1 c2 m = true) : ∃ rest, m = c1 :: c2 :: rest := by
  match m with
  | [] => simp [startsWith2] at h
  | [d] => simp [startsWith2] at h
  | d1 :: d2 :: rest =>
    simp [startsWith2] at h
    exact ⟨rest, by rw [h.1, h.2]⟩

/-- Field effects of one `on_ws2_message` call: the transport handle, the
should-run flag, the token and the handler slot are untouched, and the
frames sent are exactly `msgOut` of the held token. -/
theorem on_ws2_message_fields (decH : List Char → Option HandshakeRaw)
    (decE : List Char → Option Json) (hr : Json → Json → Bool) (now : Int)
    (s : ClientState) (m : List Char) :
    (on_ws2_message decH decE hr now s m).1.ws_notif = s.ws_notif ∧
    (on_ws2_message decH decE hr now s m).1.ws2_should_run = s.ws2_should_run ∧
    (on_ws2_message decH decE hr now s m).1.access_token = s.access_token ∧
    (on_ws2_message decH decE hr now s m).1.hasHandler = s.hasHandler ∧
    (on_ws2_message decH decE hr now s m).2 = msgOut s.access_token m := by
  unfold on_ws2_message on_ws2_message_body msgOut
  repeat' split
  all_goals simp_all

/-- Outbound frames of a whole inbound sequence: the per-frame `msgOut`
lists concatenated in order (the processing never changes the held
token, so the per-frame output function is invariant along the run). -/
theorem runSession_out (decH : List Char → Option HandshakeRaw)
    (decE : List Char → Option Json) (hr : Json → Json → Bool) (now : Int)
    (s : ClientState) (msgs : List (List Char)) :
    (runSession decH decE hr now s msgs).2
      = joinFrames (msgs.map (msgOut s.access_token)) := by
  induction msgs generalizing s with
  | nil => simp [runSession, joinFrames]
  | cons m ms ih =>
    have hf := on_ws2_message_fields decH decE hr now s m
    show (on_ws2_message decH decE hr now s m).2
        ++ (runSession decH decE hr now (on_ws2_message decH decE hr now s m).1 ms).2
      = joinFrames (msgOut s.access_token m :: ms.map (msgOut s.access_token))
    rw [hf.2.2.2.2, ih, hf.2.2.1]
    rfl

/-- C4: on a handshake frame the session adopts exactly the clamped
values: `pingInterval`/`pingTimeout` absent default to 25 s / 60 s, a
present value below the floor (5000 ms / 10000 ms) clamps to the floor
5 s / 10 s after floor-dividing milliseconds by 1000, and an unparsable
payload yields the defaults 25 s / 60 s without raising. -/
theorem c4_handshake_defaults_and_clamps
    (decH : List Char → Option HandshakeRaw) (decE : List Char → Option Json)
    (hr : Json → Json → Bool) (now : Int) (s : ClientState) (m : List Char)
    (iRaw tRaw : Option (Option Int)) (pi pt : Int)
    (hm : startsWith1 '0' m = true) (hpi : pi < 5000) (hpt : pt < 10000) :
    ((on_ws2_message decH decE hr now s m).1.ping2_interval_sec
        = (clampHandshake (decH (m.drop 1))).1 ∧
     (on_ws2_message decH decE hr now s m).1.ping2_timeout_sec
        = (clampHandshake (decH (m.drop 1))).2) ∧
    clampHandshake none = (25, 60) ∧
    (clampHandshake (some ⟨none, tRaw⟩)).1 = 25 ∧
    (clampHandshake (some ⟨iRaw, none⟩)).2 = 60 ∧
    clampHandshake (some ⟨some (some pi), some (some pt)⟩)
      = (max 5 (Int.fdiv pi 1000), max 10 (Int.fdiv pt 1000)) ∧
    (clampHandshake (some ⟨some (some pi), some (some pt)⟩)).1 = 5 ∧
    (clampHandshake (some ⟨some (some pi), some (some pt)⟩)).2 = 10 := by
  refine ⟨?_, by decide, ?_, ?_, rfl, ?_, ?_⟩
  · constructor <;> simp [on_ws2_message, on_ws2_message_body, hm]
  · match tRaw with
    | none => decide
    | some none => decide
    | some (some x) =>
      show max 5 (Int.fdiv 25000 1000) = 25
      decide
  · match iRaw with
    | none => decide
    | some none => decide
    | some (some x) =>
      show max 10 (Int.fdiv 60000 1000) = 60
      decide
  · show max 5 (Int.fdiv pi 1000) = 5
    rw [Int.fdiv_eq_ediv pi (by norm_num)]
    have hle : pi / 1000 ≤ 5 := by omega
    exact max_eq_left hle
  · show max 10 (Int.fdiv pt 1000) = 10
    rw [Int.fdiv_eq_ediv pt (by norm_num)]
    have hle : pt / 1000 ≤ 10 := by omega
    exact max_eq_left hle

/-- C4 witness: the clamp evaluated on a concrete handshake payload of
3000 ms / 9999 ms. -/
theorem c4_handshake_witness :
    (clampHandshake (some ⟨some (some 3000), some (some 9999)⟩)).1 = 5 ∧
    (clampHandshake (some ⟨some (some 3000), some (some 9999)⟩)).2 = 10 :=
  ⟨(c4_handshake_defaults_and_clamps (fun _ => none) (fun _ => none)
      (fun _ _ => false) 0 ⟨none, 0, none, false, 25, 60, 0, 0, false⟩
      (chars "0") none none 3000 9999 (by decide) (by decide) (by decide)).2.2.2.2.2.1,
   (c4_handshake_defaults_and_clamps (fun _ => none) (fun _ => none)
      (fun _ _ => false) 0 ⟨none, 0, none, false, 25, 60, 0, 0, false⟩
      (chars "0") none none 3000 9999 (by decide) (by decide) (by decide)).2.2.2.2.2.2⟩

/-- C5: over every inbound sequence the outbound frames are exactly the
ordered concatenation of the per-frame responses; every probe (`2`-
prefixed) frame yields exactly the one acknowledgment `"3"`; no outbound
frame is ever a probe; and on a handshake frame with held token
`"tok123"` exactly the single frame `40{"token":"tok123"}` is sent. -/
theorem c5_outbound_frames (decH : List Char → Option HandshakeRaw)
    (decE : List Char → Option Json) (hr : Json → Json → Bool) (now : Int)
    (s : ClientState) (msgs : List (List Char)) :
    (runSession decH decE hr now s msgs).2
      = joinFrames (msgs.map (msgOut s.access_token)) ∧
    (∀ tok rest, msgOut tok ('2' :: rest) = [chars "3"]) ∧
    (∀ tok m o, o ∈ msgOut tok m → startsWith1 '2' o = false) ∧
    msgOut (some (chars "tok123"))
        (chars "0\x7b\"pingInterval\":25000,\"pingTimeout\":60000\x7d")
      = [chars "40\x7b\"token\":\"tok123\"\x7d"] := by
  refine ⟨runSession_out decH decE hr now s msgs, ?_, ?_, by decide⟩
  · intro tok rest
    simp [msgOut, startsWith1]
  · intro tok m o ho
    unfold msgOut at ho
    split at ho
    · match tok with
      | none => simp at ho
      | some t =>
        simp at ho
        subst ho
        rfl
    · split at ho
      · simp at ho
        subst ho
        rfl
      · simp at ho

/-- C5 witness: a concrete probe/pong/probe inbound sequence produces
exactly one acknowledgment per probe, in order. -/
theorem c5_outbound_frames_witness :
    (runSession (fun _ => none) (fun _ => none) (fun _ _ => false) 0
        ⟨some (chars "tok123"), 0, some (some true), true, 25, 60, 0, 0, true⟩
        [chars "2", chars "3", chars "2ping"]).2
      = [chars "3", chars "3"] := by
  rw [(c5_outbound_frames (fun _ => none) (fun _ => none) (fun _ _ => false) 0
      ⟨some (chars "tok123"), 0, some (some true), true, 25, 60, 0, 0, true⟩
      [chars "2", chars "3", chars "2ping"]).1]
  decide

/-- C8: the receive path contains every error — the transport handle and
should-run flag are untouched by any inbound frame, the result never
depends on whether the registered handler raises, a `42` frame whose
payload fails to decode is dropped with no outbound frame, and a
handshake whose payload fails to parse yields the 25 s / 60 s defaults —
all without any exception escaping `on_ws2_message`. -/
theorem c8_error_containment (decH : List Char → Option HandshakeRaw)
    (decE : List Char → Option Json) (hr hr2 : Json → Json → Bool)
    (now : Int) (s : ClientState) (m : List Char) :
    ((on_ws2_message decH decE hr now s m).1.ws_notif = s.ws_notif ∧
     (on_ws2_message decH decE hr now s m).1.ws2_should_run = s.ws2_should_run) ∧
    on_ws2_message decH decE hr now s m = on_ws2_message decH decE hr2 now s m ∧
    (startsWith2 '4' '2' m = true → decE (m.drop 2) = none →
      on_ws2_message decH decE hr now s m = ({ s with last2_rx_ts := now }, [])) ∧
    (startsWith1 '0' m = true → decH (m.drop 1) = none →
      (on_ws2_message decH decE hr now s m).1.ping2_interval_sec = 25 ∧
      (on_ws2_message decH decE hr now s m).1.ping2_timeout_sec = 60) := by
  have h3 : chars "3" = ['3'] := rfl
  refine ⟨⟨(on_ws2_message_fields decH decE hr now s m).1,
          (on_ws2_message_fields decH decE hr now s m).2.1⟩, rfl, ?_, ?_⟩
  · intro h42 hdec
    obtain ⟨rest, hm⟩ := startsWith2_shape '4' '2' m h42
    subst hm
    simp at hdec
    simp [on_ws2_message, on_ws2_message_body, startsWith1, startsWith2, h3, hdec]
  · intro h0 hdec
    obtain ⟨rest, hm⟩ := startsWith1_shape '0' m h0
    subst hm
    simp at hdec
    constructor <;>
      simp [on_ws2_message, on_ws2_message_body, startsWith1, clampHandshake, hdec]

/-- C8 witness: a `42` frame with an undecodable payload, received by a
session with a registered (raising) handler, is dropped while the session
stays open. -/
theorem c8_error_containment_witness :
    on_ws2_message (fun _ => none) (fun _ => none) (fun _ _ => true) 5
        ⟨none, 0, some (some true), true, 25, 60, 0, 0, true⟩ (chars "42oops")
      = (⟨none, 0, some (some true), true, 25, 60, 5, 0, true⟩, []) :=
  (c8_error_containment (fun _ => none) (fun _ => none) (fun _ _ => true)
      (fun _ _ => true) 5 ⟨none, 0, some (some true), true, 25, 60, 0, 0, true⟩
      (chars "42oops")).2.2.1 (by decide) rfl

/-- Any arrival (or the open itself, `j = 0`) at second `j` keeps the
stored receive timestamp at least `o + j` at every later second. -/
theorem lastRxAt_ge (o : Int) (arrive : Nat → Bool) (j k : Nat)
    (hjk : j ≤ k) (hj : j = 0 ∨ arrive j = true) :
    o + (j : Int) ≤ lastRxAt o arrive k := by
  induction k with
  | zero =>
    have hj0 : j = 0 := Nat.le_zero.mp hjk
    subst hj0
    simp [lastRxAt]
  | succ k ih =>
    by_cases hk : j = k + 1
    · subst hk
      rcases hj with h0 | ha
      · exact absurd h0 (Nat.succ_ne_zero k)
      · simp [lastRxAt, ha]
    · have hjk' : j ≤ k := by omega
      have hle := ih hjk'
      simp only [lastRxAt]
      split
      · push_cast
        omega
      · exact hle

/-- With no arrivals in the `k` seconds after open, the stored receive
timestamp still holds the open time. -/
theorem lastRxAt_const (o : Int) (arrive : Nat → Bool) (k : Nat)
    (h : ∀ i, 1 ≤ i → i ≤ k → arrive i = false) :
    lastRxAt o arrive k = o := by
  induction k with
  | zero => rfl
  | succ k ih =>
    have hk : arrive (k + 1) = false := h (k + 1) (by omega) (by omega)
    simp only [lastRxAt, hk]
    simp only [Bool.false_eq_true, if_false]
    exact ih (fun i h1 h2 => h i h1 (by omega))

/-- C6: with negotiated pingTimeout 60 s, a session opened at wall-clock
`o ≥ 1` and silent for 61 s is force-closed by the watchdog check; a
session in which some inbound frame arrived within the last 30 s of every
second `k` is never force-closed, over an arbitrarily long run; and a
watchdog iteration writes no frame to the transport — its only action is
the close decision. -/
theorem c6_watchdog_liveness (o : Int) (arrA arrB : Nat → Bool)
    (ho : 1 ≤ o)
    (hA : ∀ i, 1 ≤ i → i ≤ 61 → arrA i = false)
    (hB : ∀ k : Nat, ∃ j : Nat, j ≤ k ∧ k ≤ j + 30 ∧ (j = 0 ∨ arrB j = true)) :
    watchdogCloses 60 (lastRxAt o arrA 61) (o + 61) = true ∧
    (∀ k : Nat, watchdogCloses 60 (lastRxAt o arrB k) (o + (k : Int)) = false) ∧
    (∀ timeoutSec lastRx now, (watchdogLoopIter timeoutSec lastRx now).1 = []) := by
  refine ⟨?_, ?_, fun _ _ _ => rfl⟩
  · rw [lastRxAt_const o arrA 61 hA]
    unfold watchdogCloses
    rw [if_neg (by omega)]
    simp only [decide_eq_true_eq]
    omega
  · intro k
    obtain ⟨j, hj1, hj2, hj3⟩ := hB k
    have hge := lastRxAt_ge o arrB j k hj1 hj3
    unfold watchdogCloses
    rw [if_neg (by omega)]
    simp only [decide_eq_false_iff_not]
    omega

/-- C6 witness: total silence trips the watchdog at 61 s past an open at
wall-clock 1; frames every 30 s never trip it (checked at second 45). -/
theorem c6_watchdog_liveness_witness :
    watchdogCloses 60 (lastRxAt 1 (fun _ => false) 61) 62 = true ∧
    watchdogCloses 60 (lastRxAt 1 (fun k => decide (k % 30 = 0)) 45) 46 = false :=
  have h := c6_watchdog_liveness 1 (fun _ => false) (fun k => decide (k % 30 = 0))
    (by norm_num) (fun i h1 h2 => rfl)
    (fun k => ⟨30 * (k / 30), by omega, by omega, Or.inr (by simp)⟩)
  ⟨h.1, h.2.1 45⟩

/-- Every character escapes to at least one character. -/
theorem jsonEscapeChar_len_pos (c : Char) : 1 ≤ (jsonEscapeChar c).length := by
  unfold jsonEscapeChar
  repeat' split
  all_goals simp

/-- Unfolding of `jsonEscape` on a cons cell. -/
theorem jsonEscape_cons (c : Char) (t : List Char) :
    jsonEscape (c :: t) = jsonEscapeChar c ++ jsonEscape t := rfl

/-- Escaping never shortens a string body. -/
theorem jsonEscape_len_ge (t : List Char) : t.length ≤ (jsonEscape t).length := by
  induction t with
  | nil => simp [jsonEscape]
  | cons c t ih =>
    rw [jsonEscape_cons]
    have hpos := jsonEscapeChar_len_pos c
    simp only [List.length_append, List.length_cons]
    omega

/-- Escaping strictly lengthens a string body containing a character
whose escape takes at least two characters. -/
theorem jsonEscape_len_lt (t : List Char) (c : Char) (hc : c ∈ t)
    (h2 : 2 ≤ (jsonEscapeChar c).length) :
    t.length < (jsonEscape t).length := by
  induction t with
  | nil => simp at hc
  | cons d t ih =>
    rw [jsonEscape_cons]
    simp only [List.length_append, List.length_cons]
    rcases List.mem_cons.mp hc with h | h
    · subst h
      have hge := jsonEscape_len_ge t
      omega
    · have hlt := ih h
      have hpos := jsonEscapeChar_len_pos d
      omega

/-- The unescaped auth frame coincides with the properly escaped JSON
encoding of the token object only for tokens free of double quotes and
backslashes. -/
theorem authFrame_eq_encoding_only_clean (t : List Char)
    (heq : authFrame t = chars "40" ++ jsonEncodeTokenObj t) :
    '"' ∉ t ∧ '\\' ∉ t := by
  have hpre : chars "40\x7b\"token\":\"" = chars "40" ++ chars "\x7b\"token\":\"" := rfl
  unfold authFrame jsonEncodeTokenObj at heq
  rw [hpre] at heq
  simp only [List.append_assoc] at heq
  simp only [List.append_cancel_left_eq, List.append_cancel_right_eq] at heq
  have hlen := congrArg List.length heq
  constructor <;> intro hmem
  · exact absurd hlen (Nat.ne_of_lt (jsonEscape_len_lt t '"' hmem (by decide)))
  · exact absurd hlen (Nat.ne_of_lt (jsonEscape_len_lt t '\\' hmem (by decide)))

/-- C10 counterexample: the token `a","b":"c` contains a double quote,
yet the emitted frame's payload `{"token":"a","b":"c"}` parses as valid
JSON (of a two-member object) — refuting "for a token containing such
characters the emitted frame is not valid JSON". -/
theorem c10_counterexample :
    ('"' ∈ chars "a\",\"b\":\"c") ∧
    jsonValid ((authFrame (chars "a\",\"b\":\"c")).drop 2) = true := by
  constructor
  · decide
  · decide

/-- C10 amended: the auth frame is the literal character concatenation
`40{"token":"` + t + `"}` with no JSON escaping applied to the token; it
equals the JSON encoding of the object with member `token = t` only when
`t` contains no double-quote or backslash characters; and for some such
tokens — e.g. a token that is a single double quote — the frame's payload
is not valid JSON (though not for all such tokens). -/
theorem c10_auth_frame_amended :
    (∀ t, authFrame t = chars "40\x7b\"token\":\"" ++ t ++ chars "\"\x7d") ∧
    (∀ t, authFrame t = chars "40" ++ jsonEncodeTokenObj t → '"' ∉ t ∧ '\\' ∉ t) ∧
    jsonValid ((authFrame (chars "\"")).drop 2) = false := by
  refine ⟨fun t => rfl, fun t heq => authFrame_eq_encoding_only_clean t heq, by decide⟩

/-- C10 witness: the clean token `tok123` satisfies the encoding
equality, so the only-when direction applies to it. -/
theorem c10_auth_frame_witness :
    '"' ∉ chars "tok123" ∧ '\\' ∉ chars "tok123" :=
  c10_auth_frame_amended.2.1 (chars "tok123") (by decide)
